import Mathlib

/-!
Verification development for the energy-forecasting repository.

The definitions below are shallow embeddings of the Python sources:
  - `energy_data/management/commands/import_opsd_data.py`
  - `weather/management/commands/import_weather_data.py`
  - `analytics/management/commands/generate_data_profile.py`
  - `analytics/admin.py` (background report generation)

Numeric CSV cells are embedded as `Option ℚ` (a `none` is a pandas
NaN / missing value); pandas float columns inside the analytics
feature computer are embedded as `PVal`, which models the IEEE
special values (±infinity, NaN) that pandas arithmetic produces,
with exact rational arithmetic for the finite case.
-/

namespace EnergyForecast

/-! ### Python string primitives

Structural-recursion re-implementations of the Python `str`
operations used by the importers (`in`, `split`, `join`, `replace`,
`upper`, `strip`), kept kernel-computable so that concrete runs can
be settled by `decide`. -/

/-- Python needle-prefix test used by `strContains`. -/
def containsFrom (needle : List Char) : List Char → Bool
  | [] => needle.isPrefixOf []
  | c :: rest => needle.isPrefixOf (c :: rest) || containsFrom needle rest

/-- Python `needle in hay` substring test. -/
def strContains (hay needle : String) : Bool :=
  containsFrom needle.data hay.data

/-- Python `s.split(sep)` over character lists (keeps empty fields). -/
def splitChar (sep : Char) : List Char → List (List Char)
  | [] => [[]]
  | c :: rest =>
    if c = sep then [] :: splitChar sep rest
    else
      match splitChar sep rest with
      | [] => [[c]]
      | g :: gs => (c :: g) :: gs

/-- Python `s.split(sep)`. -/
def pySplit (sep : Char) (s : String) : List String :=
  (splitChar sep s.data).map String.mk

/-- Python `s.split(sep, 1)`: split only at the first separator. -/
def pySplitOnce (sep : Char) (s : String) : List String :=
  match pySplit sep s with
  | [] => []
  | [x] => [x]
  | x :: rest => [x, String.intercalate (String.singleton sep) rest]

/-- Fuel-bounded worker for Python `s.replace(needle, repl)`. -/
def pyReplaceAux (needle repl : List Char) : ℕ → List Char → List Char
  | _, [] => []
  | 0, s => s
  | fuel + 1, c :: rest =>
    if !needle.isEmpty && needle.isPrefixOf (c :: rest) then
      repl ++ pyReplaceAux needle repl fuel (List.drop needle.length (c :: rest))
    else
      c :: pyReplaceAux needle repl fuel rest

/-- Python `s.replace(needle, repl)` (all occurrences, left to right). -/
def pyReplace (s needle repl : String) : String :=
  String.mk (pyReplaceAux needle.data repl.data s.data.length s.data)

/-- Python `s.upper()`. -/
def pyUpper (s : String) : String :=
  String.mk (s.data.map Char.toUpper)

/-- Python `s.strip()` (space stripping suffices for the inputs used here). -/
def pyStrip (s : String) : String :=
  String.mk (((s.data.dropWhile (fun c => c = ' ')).reverse.dropWhile (fun c => c = ' ')).reverse)

/-! ### Column classifier (`Command.parse_column_structure`) -/

/-- The five buckets of `parse_column_structure`'s `column_mapping` dict. -/
inductive Bucket where
  | load_data
  | renewable_generation
  | energy_prices
  | capacity_data
  | ignored
deriving DecidableEq

/-- The two timestamp columns skipped by the classifier loop. -/
def timestampColumns : List String := ["utc_timestamp", "cet_cest_timestamp"]

/-- One iteration of the classifier loop (`import_opsd_data.py`,
lines 125-148): timestamp columns are skipped (`continue`) and land in
no bucket, a column without a separator is ignored, otherwise the text
after the first separator is matched against the ordered substring
rules. -/
def classifyColumn (column : String) : Option Bucket :=
  if column ∈ timestampColumns then none
  else
    let parts := pySplit '_' column
    if parts.length < 2 then some Bucket.ignored
    else
      let data_type := String.intercalate "_" parts.tail
      if strContains data_type "load_actual" || strContains data_type "load_forecast" then
        some Bucket.load_data
      else if strContains data_type "generation_actual" then
        some Bucket.renewable_generation
      else if strContains data_type "capacity" then
        some Bucket.capacity_data
      else if strContains data_type "price_day_ahead" then
        some Bucket.energy_prices
      else
        some Bucket.ignored

/-- The empty classification mapping (all five buckets empty). -/
def emptyMapping : Bucket → List String := fun _ => []

/-- Append one column to the bucket chosen by `classifyColumn`. -/
def insertColumn (m : Bucket → List String) (column : String) : Bucket → List String :=
  match classifyColumn column with
  | none => m
  | some b => fun b2 => if b2 = b then m b2 ++ [column] else m b2

/-- `Command.parse_column_structure`: categorize every column of the
data frame into the five buckets. -/
def parse_column_structure (columns : List String) : Bucket → List String :=
  columns.foldl insertColumn emptyMapping

/-- The five buckets, in the order the source dict declares them. -/
def bucketList : List Bucket :=
  [Bucket.load_data, Bucket.renewable_generation, Bucket.energy_prices,
   Bucket.capacity_data, Bucket.ignored]

/-- Number of buckets whose list contains `column`. -/
def bucketsContaining (m : Bucket → List String) (column : String) : ℕ :=
  bucketList.countP (fun b => decide (column ∈ m b))

/-! ### Batch importer (`Command.import_data` and its record builders)

A CSV row is embedded as its two timestamps plus an association list
of named numeric cells; `none` stands for a pandas NaN, and a lookup
of an absent key is `none` exactly as Python's `row.get(col)`. -/

/-- Lookup in an association list of nullable numeric cells;
mirrors `row.get(col)` (missing key and NaN both give `none`). -/
def lookupOpt : List (String × Option ℚ) → String → Option ℚ
  | [], _ => none
  | p :: rest, c => if p.1 = c then p.2 else lookupOpt rest c

/-- One row of the OPSD CSV. -/
structure IRow where
  utc : ℤ
  cet : ℤ
  cells : List (String × Option ℚ)
deriving DecidableEq

/-- `row.get(col)` on an OPSD row. -/
def IRow.get (r : IRow) (c : String) : Option ℚ := lookupOpt r.cells c

/-- `df[col].notna().sum()`: the number of non-null cells of one column. -/
def countNotNA (rows : List IRow) (col : String) : ℕ :=
  (rows.filter (fun r => (r.get col).isSome)).length

/-- `Command.count_load_records` (dry run): sum of per-column non-null
cell counts over the load columns. -/
def count_load_records (rows : List IRow) (load_columns : List String) : ℕ :=
  (load_columns.map (countNotNA rows)).sum

/-- `Command.count_generation_records` (dry run). -/
def count_generation_records (rows : List IRow) (generation_columns : List String) : ℕ :=
  (generation_columns.map (countNotNA rows)).sum

/-- `Command.count_price_records` (dry run). -/
def count_price_records (rows : List IRow) (price_columns : List String) : ℕ :=
  (price_columns.map (countNotNA rows)).sum

/-- `import_load_data`'s per-country pair of column names:
(`actual` slot, `forecast` slot). -/
def setLoadCol (entry : Option String × Option String) (col : String) :
    Option String × Option String :=
  if strContains col "load_actual" then (some col, entry.2)
  else if strContains col "load_forecast" then (entry.1, some col)
  else entry

/-- Insert one load column into the `country_loads` grouping,
keyed by the text before the first separator. -/
def insertLoadCol : List (String × (Option String × Option String)) → String →
    List (String × (Option String × Option String))
  | [], col => [((pySplit '_' col).headD "", setLoadCol (none, none) col)]
  | e :: rest, col =>
    if e.1 = (pySplit '_' col).headD "" then
      (e.1, setLoadCol e.2 col) :: rest
    else
      e :: insertLoadCol rest col

/-- The `country_loads` grouping built by `Command.import_load_data`. -/
def groupLoadColumns (load_columns : List String) :
    List (String × (Option String × Option String)) :=
  load_columns.foldl insertLoadCol []

/-- The `LoadData` model row built by the importer. -/
structure LoadData where
  utc : ℤ
  cet : ℤ
  country_code : String
  actual_load_mw : Option ℚ
  forecast_load_mw : Option ℚ
deriving DecidableEq

/-- The load records one CSV row contributes: one per grouped country,
skipped when both the actual and the forecast cell are null. -/
def loadRecordsForRow (groups : List (String × (Option String × Option String)))
    (r : IRow) : List LoadData :=
  groups.filterMap (fun e =>
    let actual_val : Option ℚ := match e.2.1 with | some c => r.get c | none => none
    let forecast_val : Option ℚ := match e.2.2 with | some c => r.get c | none => none
    if actual_val.isNone && forecast_val.isNone then none
    else some ⟨r.utc, r.cet, e.1, actual_val, forecast_val⟩)

/-- `Command.import_load_data`: the list of load records built for a
batch (its length is the count the non-dry-run adds to the stats). -/
def import_load_data_records (rows : List IRow) (load_columns : List String) :
    List LoadData :=
  let groups := groupLoadColumns load_columns
  rows.foldr (fun r acc => loadRecordsForRow groups r ++ acc) []

/-- `generation_type_map` of `Command.import_generation_data`,
in source (insertion) order. -/
def generation_type_map : List (String × String) :=
  [("solar_generation_actual", "solar"),
   ("wind_onshore_generation_actual", "wind_onshore"),
   ("wind_offshore_generation_actual", "wind_offshore"),
   ("wind_generation_actual", "wind_total")]

/-- The `for key, value in generation_type_map.items()` scan:
first key that is a substring of the column name wins. -/
def findGenerationType (col : String) : Option String :=
  (generation_type_map.find? (fun p => strContains col p.1)).map (fun p => p.2)

/-- The `RenewableGeneration` model row built by the importer. -/
structure RenewableGeneration where
  utc : ℤ
  cet : ℤ
  country_code : String
  generation_type : String
  actual_generation_mw : ℚ
  capacity_mw : Option ℚ
  capacity_factor : Option ℚ
deriving DecidableEq

/-- The generation record one (row, generation column) pair contributes
(`import_opsd_data.py`, lines 264-305): `none` when the column matches
no generation-type key or the cell is null; the capacity factor is
computed only for a present, strictly positive capacity (the Python
guard `if capacity_val and capacity_val > 0`). -/
def genRecordForCell (r : IRow) (col : String) (capacity_columns : List String) :
    Option RenewableGeneration :=
  match findGenerationType col with
  | none => none
  | some gtype =>
    match r.get col with
    | none => none
    | some generation_val =>
      let capacity_col := pyReplace col "generation_actual" "capacity"
      let capacity_val : Option ℚ :=
        if capacity_col ∈ capacity_columns then r.get capacity_col else none
      let capacity_factor : Option ℚ :=
        match capacity_val with
        | some c => if 0 < c then some (generation_val / c) else none
        | none => none
      some ⟨r.utc, r.cet, (pySplit '_' col).headD "", gtype,
            generation_val, capacity_val, capacity_factor⟩

/-- `Command.import_generation_data`: the generation records built for a
batch, rows outer, columns inner. -/
def import_generation_data_records (rows : List IRow)
    (generation_columns capacity_columns : List String) : List RenewableGeneration :=
  rows.foldr
    (fun r acc =>
      generation_columns.filterMap (fun col => genRecordForCell r col capacity_columns) ++ acc)
    []

/-- The `EnergyPrice` model row built by the importer. -/
structure EnergyPrice where
  utc : ℤ
  cet : ℤ
  country_code : String
  day_ahead_price : ℚ
  currency : String
deriving DecidableEq

/-- The price record one (row, price column) pair contributes:
GBP for entities starting with `GB`, EUR otherwise. -/
def priceRecordForCell (r : IRow) (col : String) : Option EnergyPrice :=
  match r.get col with
  | none => none
  | some price_val =>
    let country_code := (pySplit '_' col).headD ""
    let currency := if "GB".data.isPrefixOf country_code.data then "GBP" else "EUR"
    some ⟨r.utc, r.cet, country_code, price_val, currency⟩

/-- `Command.import_price_data`: the price records built for a batch. -/
def import_price_data_records (rows : List IRow) (price_columns : List String) :
    List EnergyPrice :=
  rows.foldr (fun r acc => price_columns.filterMap (priceRecordForCell r) ++ acc) []

/-! ### Weather importer (`import_weather_data.py`) -/

/-- One country's entry of the weather `country_mapping`:
the column (if any) holding each of the three recognized variables. -/
structure WVars where
  temperature : Option String
  radiation_direct : Option String
  radiation_diffuse : Option String
deriving DecidableEq

/-- Assign one parsed column to its slot in a country's entry;
unrecognized variable names leave the entry unchanged. -/
def setWeatherVar (v : WVars) (var_name col : String) : WVars :=
  if var_name = "temperature" then ⟨some col, v.radiation_direct, v.radiation_diffuse⟩
  else if var_name = "radiation_direct_horizontal" then ⟨v.temperature, some col, v.radiation_diffuse⟩
  else if var_name = "radiation_diffuse_horizontal" then ⟨v.temperature, v.radiation_direct, some col⟩
  else v

/-- Insert (or update) one country's entry, preserving first-seen order. -/
def insertCountryVar (m : List (String × WVars)) (cc var_name col : String) :
    List (String × WVars) :=
  match m with
  | [] => [(cc, setWeatherVar ⟨none, none, none⟩ var_name col)]
  | e :: rest =>
    if e.1 = cc then (e.1, setWeatherVar e.2 var_name col) :: rest
    else e :: insertCountryVar rest cc var_name col

/-- One iteration of the `parse_weather_columns` loop: skip the
timestamp column, split at the first separator, uppercase the country,
apply the optional country filter, then record the variable. -/
def parseWeatherColumn (target_countries : Option (List String))
    (m : List (String × WVars)) (column : String) : List (String × WVars) :=
  if column = "utc_timestamp" then m
  else
    match pySplitOnce '_' column with
    | [country_part, var_name] =>
      let country_code := pyUpper country_part
      match target_countries with
      | some targets =>
        if country_code ∈ targets then insertCountryVar m country_code var_name column else m
      | none => insertCountryVar m country_code var_name column
    | _ => m

/-- `Command.parse_weather_columns`. -/
def parse_weather_columns (columns : List String) (countries_filter : Option String) :
    List (String × WVars) :=
  let target_countries :=
    countries_filter.map (fun s => (pySplit ',' s).map (fun c => pyUpper (pyStrip c)))
  columns.foldl (parseWeatherColumn target_countries) []

/-- The `WeatherData` model row built by the weather importer. -/
structure WeatherData where
  timestamp : ℤ
  location : String
  country_code : String
  temperature_celsius : Option ℚ
  solar_irradiance_wm2 : Option ℚ
deriving DecidableEq

/-- One row of the weather CSV. -/
structure WRow where
  ts : ℤ
  cells : List (String × Option ℚ)
deriving DecidableEq

/-- `row.get(col)` on a weather row. -/
def WRow.get (r : WRow) (c : String) : Option ℚ := lookupOpt r.cells c

/-- The weather record one (row, country) pair contributes
(`import_weather_data.py`, lines 222-272): total irradiance is
direct + diffuse when both components are present, the single present
component otherwise; the record is skipped entirely when neither the
temperature nor any irradiance component is available. -/
def weatherRecordForCountry (r : WRow) (country_code : String) (v : WVars) :
    Option WeatherData :=
  let temperature : Option ℚ := match v.temperature with | some c => r.get c | none => none
  let direct_rad : Option ℚ := match v.radiation_direct with | some c => r.get c | none => none
  let diffuse_rad : Option ℚ := match v.radiation_diffuse with | some c => r.get c | none => none
  let solar_irradiance : Option ℚ :=
    match direct_rad, diffuse_rad with
    | some a, some b => some (a + b)
    | some a, none => some a
    | none, some b => some b
    | none, none => none
  if temperature.isNone && solar_irradiance.isNone then none
  else some ⟨r.ts, country_code ++ " Average", country_code, temperature, solar_irradiance⟩

/-- `Command.process_weather_batch`: the weather records built for a
batch, rows outer, countries inner (the per-country try/except has no
failing operation in this embedding, so no error path is modeled). -/
def process_weather_batch (rows : List WRow) (country_mapping : List (String × WVars)) :
    List WeatherData :=
  rows.foldr
    (fun r acc => country_mapping.filterMap (fun e => weatherRecordForCountry r e.1 e.2) ++ acc)
    []

/-! ### Derived feature computer (`Command.add_derived_features`)

Cells of the combined analytics frame are pandas float values, which
include the IEEE special values. `PVal` embeds them with exact
rational arithmetic for finite values; the arithmetic below follows
IEEE-754 (and hence numpy/pandas) for the special cases actually
reachable here: x/0 is ±infinity for x ≠ 0 and NaN for 0/0, NaN
propagates, and `fillna(0)` replaces only NaN, never ±infinity. -/

/-- A pandas float cell: finite rational, ±infinity, or NaN (NaN also
stands for a missing value, as in pandas). -/
inductive PVal where
  | val (q : ℚ)
  | pinf
  | ninf
  | nan
deriving DecidableEq

/-- Pandas elementwise subtraction. -/
def PVal.sub : PVal → PVal → PVal
  | nan, _ => nan
  | _, nan => nan
  | val a, val b => val (a - b)
  | val _, pinf => ninf
  | val _, ninf => pinf
  | pinf, val _ => pinf
  | ninf, val _ => ninf
  | pinf, pinf => nan
  | pinf, ninf => pinf
  | ninf, pinf => ninf
  | ninf, ninf => nan

/-- Pandas elementwise addition. -/
def PVal.add : PVal → PVal → PVal
  | nan, _ => nan
  | _, nan => nan
  | val a, val b => val (a + b)
  | val _, pinf => pinf
  | val _, ninf => ninf
  | pinf, val _ => pinf
  | ninf, val _ => ninf
  | pinf, pinf => pinf
  | ninf, ninf => ninf
  | pinf, ninf => nan
  | ninf, pinf => nan

/-- Pandas elementwise multiplication. -/
def PVal.mul : PVal → PVal → PVal
  | nan, _ => nan
  | _, nan => nan
  | val a, val b => val (a * b)
  | val a, pinf => if a = 0 then nan else if 0 < a then pinf else ninf
  | val a, ninf => if a = 0 then nan else if 0 < a then ninf else pinf
  | pinf, val b => if b = 0 then nan else if 0 < b then pinf else ninf
  | ninf, val b => if b = 0 then nan else if 0 < b then ninf else pinf
  | pinf, pinf => pinf
  | ninf, ninf => pinf
  | pinf, ninf => ninf
  | ninf, pinf => ninf

/-- Pandas elementwise division: division by zero produces ±infinity
for a nonzero numerator and NaN for 0/0 — not an exception. -/
def PVal.div : PVal → PVal → PVal
  | nan, _ => nan
  | _, nan => nan
  | val a, val b =>
    if b = 0 then (if a = 0 then nan else if 0 < a then pinf else ninf)
    else val (a / b)
  | val _, pinf => val 0
  | val _, ninf => val 0
  | pinf, val b => if 0 ≤ b then pinf else ninf
  | ninf, val b => if 0 ≤ b then ninf else pinf
  | pinf, pinf => nan
  | pinf, ninf => nan
  | ninf, pinf => nan
  | ninf, ninf => nan

/-- Pandas `.fillna(0)`: replaces NaN only; ±infinity pass through. -/
def PVal.fillna0 : PVal → PVal
  | nan => val 0
  | v => v

/-- Pandas `df[cols].sum(axis=1)` with default `skipna=True`:
NaN cells are skipped and an all-NaN selection sums to 0. -/
def pandasRowSum (vs : List PVal) : PVal :=
  (vs.filter (fun v => decide (v ≠ PVal.nan))).foldl PVal.add (PVal.val 0)

/-- The calendar fields `.dt` exposes on the `timestamp` column. -/
structure PTimestamp where
  hour : ℕ
  dayofweek : ℕ
  month : ℕ
deriving DecidableEq

/-- One row of the combined analytics frame: its timestamp plus the
named float cells. -/
structure ARow where
  ts : PTimestamp
  cells : List (String × PVal)
deriving DecidableEq

/-- Lookup of a float cell (used only under an `in df.columns` guard). -/
def lookupPVal : List (String × PVal) → String → PVal
  | [], _ => PVal.nan
  | p :: rest, c => if p.1 = c then p.2 else lookupPVal rest c

/-- `df[c]` read at one row. -/
def ARow.get (r : ARow) (c : String) : PVal := lookupPVal r.cells c

/-- `df[c] = v` write at one row: replace the first binding or append. -/
def setPVal : List (String × PVal) → String → PVal → List (String × PVal)
  | [], c, v => [(c, v)]
  | p :: rest, c, v => if p.1 = c then (c, v) :: rest else p :: setPVal rest c v

/-- Row-level column assignment. -/
def ARow.set (r : ARow) (c : String) (v : PVal) : ARow := ⟨r.ts, setPVal r.cells c v⟩

/-- The combined wide analytics frame: column list plus rows. -/
structure DFrame where
  cols : List String
  rows : List ARow
deriving DecidableEq

/-- `df[c] = <expression of each row>`: adds the column name if new and
writes the value in every row. -/
def DFrame.setCol (df : DFrame) (c : String) (f : ARow → PVal) : DFrame :=
  ⟨if c ∈ df.cols then df.cols else df.cols ++ [c],
   df.rows.map (fun r => r.set c (f r))⟩

/-- The time-based feature block of `add_derived_features`
(lines 264-268); the boolean `is_weekend` column is embedded as 0/1. -/
def addCalendarCols (df : DFrame) : DFrame :=
  (((df.setCol "hour" (fun r => PVal.val r.ts.hour)).setCol
      "day_of_week" (fun r => PVal.val r.ts.dayofweek)).setCol
      "month" (fun r => PVal.val r.ts.month)).setCol
      "is_weekend" (fun r => PVal.val (if r.ts.dayofweek = 5 ∨ r.ts.dayofweek = 6 then 1 else 0))

/-- The load feature block (lines 270-275): forecast error and its
percentage, only when both load columns are present. -/
def addLoadErrorCols (df : DFrame) : DFrame :=
  if "actual_load_mw" ∈ df.cols ∧ "forecast_load_mw" ∈ df.cols then
    let dfe := df.setCol "forecast_error_mw"
      (fun r => (r.get "actual_load_mw").sub (r.get "forecast_load_mw"))
    dfe.setCol "forecast_error_pct"
      (fun r => (((r.get "forecast_error_mw").div (r.get "actual_load_mw")).mul
        (PVal.val 100)).fillna0)
  else df

/-- The renewable feature block (lines 277-284): total renewable
generation and penetration percentage. -/
def addRenewableCols (df : DFrame) : DFrame :=
  let renewable_cols := df.cols.filter (fun c => strContains c "actual_generation_mw")
  if renewable_cols.isEmpty then df
  else
    let dft := df.setCol "total_renewable_mw"
      (fun r => pandasRowSum (renewable_cols.map (fun c => r.get c)))
    if "actual_load_mw" ∈ dft.cols then
      dft.setCol "renewable_penetration_pct"
        (fun r => (((r.get "total_renewable_mw").div (r.get "actual_load_mw")).mul
          (PVal.val 100)).fillna0)
    else dft

/-- `Command.add_derived_features`: empty frames are returned as-is;
a present `timestamp` column is required by the unguarded
`df['timestamp']` access (its absence raises a `KeyError`, embedded as
the error branch); every other column access is membership-guarded. -/
def add_derived_features (df : DFrame) : Except String DFrame :=
  if df.rows.isEmpty then Except.ok df
  else if "timestamp" ∉ df.cols then Except.error "KeyError: timestamp"
  else Except.ok (addRenewableCols (addLoadErrorCols (addCalendarCols df)))

/-! ### Report pipeline (`generate_data_profile.py` `handle` and
`analytics/admin.py` `generate_report_async`)

The pipeline's external collaborators (ORM extraction, the profiling
library, boto3, the filesystem) are abstracted as an environment whose
fields record how each external call would behave; the control flow —
the guard on an empty extraction, the `try`/`except` fallback ladder of
`upload_to_s3`, the last-resort branch of `save_report_locally`, and
the background thread's terminal log update — is translated from the
source. -/

/-- Outcome of the `s3_client.upload_file` call. -/
inductive S3UploadAttempt where
  | ok
  | clientError (msg : String)
  | otherError (msg : String)
deriving DecidableEq

/-- Outcome of the `generate_presigned_url` call. -/
inductive PresignAttempt where
  | ok (url : String)
  | fail (msg : String)
deriving DecidableEq

/-- Abstracted externals of one report request. -/
structure ReportEnv where
  extractedRowCount : ℕ
  profileError : Option String
  tempFilePath : String
  awsMissingSettings : List String
  uploadAttempt : S3UploadAttempt
  presignAttempt : PresignAttempt
  endpointUrlSet : Bool
  directUrl : String
  localSaveError : Option String
  localMediaPath : String
deriving DecidableEq

/-- `Command.save_report_locally`: on any internal failure the
last-resort branch returns the temporary file path instead of raising. -/
def save_report_locally (env : ReportEnv) : String :=
  match env.localSaveError with
  | some _ => env.tempFilePath
  | none => env.localMediaPath

/-- `Command.upload_to_s3`: missing AWS settings, a `ClientError`, and
any other exception all fall back to the local save; a presign failure
with a custom endpoint configured hits the undefined `use_ssl` name
(line 399), whose `NameError` is caught by the outer handler and also
falls back to the local save. This function never raises. -/
def upload_to_s3 (env : ReportEnv) : String :=
  if !env.awsMissingSettings.isEmpty then save_report_locally env
  else
    match env.uploadAttempt with
    | S3UploadAttempt.clientError _ => save_report_locally env
    | S3UploadAttempt.otherError _ => save_report_locally env
    | S3UploadAttempt.ok =>
      match env.presignAttempt with
      | PresignAttempt.ok url => url
      | PresignAttempt.fail _ =>
        if env.endpointUrlSet then save_report_locally env
        else env.directUrl

/-- What one run of the management command did: the `CommandError` it
raised (if any), which stages ran, and the `DataProfilingReport` row it
created (if any) with its recorded report reference. -/
structure HandleOutcome where
  commandError : Option String
  profilingRan : Bool
  uploadRan : Bool
  savedReportUrl : Option String
deriving DecidableEq

/-- `Command.handle`: an empty extraction raises
`CommandError('No data found for the specified criteria')` before the
profiling, upload, and metadata stages; otherwise the stages run in
order and the metadata row records whatever `upload_to_s3` returned. -/
def command_handle (env : ReportEnv) : HandleOutcome :=
  if env.extractedRowCount = 0 then
    ⟨some "No data found for the specified criteria", false, false, none⟩
  else
    match env.profileError with
    | some e => ⟨some e, true, false, none⟩
    | none => ⟨none, true, true, some (upload_to_s3 env)⟩

/-- Terminal statuses of a `ReportGenerationLog` row. -/
inductive LogStatus where
  | in_progress
  | success
  | failed
deriving DecidableEq

/-- `generate_report_async` (`analytics/admin.py`, lines 184-194): the
background thread sets the log to `success` when `call_command`
returns and to `failed` when it raises. -/
def generate_report_async (env : ReportEnv) : LogStatus :=
  match (command_handle env).commandError with
  | some _ => LogStatus.failed
  | none => LogStatus.success

/-! ## Helper lemmas -/

/-- Congruence of `List.map` over the members of the list. -/
theorem map_congr_mem {α β : Type} (l : List α) (f g : α → β)
    (h : ∀ a ∈ l, f a = g a) : l.map f = l.map g := by
  induction l with
  | nil => rfl
  | cons a t ih =>
    simp only [List.map_cons, h a (List.mem_cons_self a t)]
    rw [ih (fun x hx => h x (List.mem_cons_of_mem a hx))]

/-- A filter is empty exactly when no member satisfies the predicate. -/
theorem filter_eq_nil_forall {α : Type} (p : α → Bool) (l : List α) :
    l.filter p = [] ↔ ∀ a ∈ l, p a = false := by
  induction l with
  | nil => simp
  | cons a t ih => by_cases h : p a <;> simp [List.filter_cons, h, ih]

/-- Unfolding equation of the generation-record builder over a batch. -/
theorem import_generation_cons (r : IRow) (rest : List IRow)
    (gcols ccols : List String) :
    import_generation_data_records (r :: rest) gcols ccols
      = gcols.filterMap (fun col => genRecordForCell r col ccols)
        ++ import_generation_data_records rest gcols ccols := rfl

/-- The capacity-factor field of any record `genRecordForCell` emits is
determined by its capacity field: absent unless the capacity is present
and strictly positive, in which case it is the exact quotient. -/
theorem genRecordForCell_capacity_factor (r : IRow) (col : String)
    (ccols : List String) (g : RenewableGeneration)
    (h : genRecordForCell r col ccols = some g) :
    g.capacity_factor =
      match g.capacity_mw with
      | some c => if 0 < c then some (g.actual_generation_mw / c) else none
      | none => none := by
  unfold genRecordForCell at h
  rcases hft : findGenerationType col with _ | gtype
  · rw [hft] at h; cases h
  · rw [hft] at h
    rcases hval : r.get col with _ | gv
    · rw [hval] at h; cases h
    · rw [hval] at h
      injection h with h2
      subst h2
      rcases hcv : (if pyReplace col "generation_actual" "capacity" ∈ ccols then
          r.get (pyReplace col "generation_actual" "capacity") else none) with _ | c
      · simp only [hcv]
      · simp only [hcv]

/-- Reading a cell after writing one: the written column returns the
new value, every other column is unchanged. -/
theorem lookupPVal_setPVal (l : List (String × PVal)) (c c2 : String) (v : PVal) :
    lookupPVal (setPVal l c v) c2 = if c2 = c then v else lookupPVal l c2 := by
  induction l with
  | nil =>
    by_cases h : c2 = c
    · simp [setPVal, lookupPVal, h]
    · have h2 : ¬ (c = c2) := fun hh => h hh.symm
      simp [setPVal, lookupPVal, h, h2]
  | cons p rest ih =>
    by_cases h1 : p.1 = c
    · by_cases h2 : c2 = c
      · simp [setPVal, lookupPVal, h1, h2]
      · have h3 : ¬ (c = c2) := fun hh => h2 hh.symm
        have h4 : ¬ (p.1 = c2) := by rw [h1]; exact h3
        simp [setPVal, lookupPVal, h1, h2, h3, h4]
    · by_cases h2 : p.1 = c2
      · have h5 : ¬ (c2 = c) := fun hh => h1 (h2.trans hh)
        simp [setPVal, lookupPVal, h1, h2, h5]
      · simp [setPVal, lookupPVal, h1, h2, ih]

/-- Row-level version of `lookupPVal_setPVal`. -/
theorem ARow.get_set (r : ARow) (c c2 : String) (v : PVal) :
    (r.set c v).get c2 = if c2 = c then v else r.get c2 :=
  lookupPVal_setPVal r.cells c c2 v

/-- Column membership after a column assignment. -/
theorem mem_setCol_cols (df : DFrame) (c : String) (f : ARow → PVal) (x : String) :
    x ∈ (DFrame.setCol df c f).cols ↔ x ∈ df.cols ∨ x = c := by
  simp only [DFrame.setCol]
  by_cases h : c ∈ df.cols
  · simp only [if_pos h]
    constructor
    · exact fun hx => Or.inl hx
    · rintro (hx | rfl)
      · exact hx
      · exact h
  · simp [if_neg h]

/-- A column assignment leaves the values of every other column
unchanged across all rows. -/
theorem setCol_map_get (df : DFrame) (c : String) (f : ARow → PVal) (c2 : String)
    (h : c2 ≠ c) :
    (DFrame.setCol df c f).rows.map (fun r => r.get c2)
      = df.rows.map (fun r => r.get c2) := by
  simp only [DFrame.setCol, List.map_map]
  refine map_congr_mem _ _ _ (fun r _ => ?_)
  show (ARow.set r c (f r)).get c2 = r.get c2
  rw [ARow.get_set]
  exact if_neg h

/-- Columns of the calendar block: the input columns plus the four
calendar names. -/
theorem addCalendarCols_cols (df : DFrame) (x : String) :
    x ∈ (addCalendarCols df).cols
      ↔ x ∈ df.cols ∨ x = "hour" ∨ x = "day_of_week" ∨ x = "month" ∨ x = "is_weekend" := by
  simp only [addCalendarCols, mem_setCol_cols]
  tauto

/-- A name distinct from the four calendar names is in the calendar
block's columns exactly when it was in the input columns. -/
theorem mem_addCalendarCols_of_ne (df : DFrame) (x : String)
    (h1 : x ≠ "hour") (h2 : x ≠ "day_of_week") (h3 : x ≠ "month")
    (h4 : x ≠ "is_weekend") :
    x ∈ (addCalendarCols df).cols ↔ x ∈ df.cols := by
  rw [addCalendarCols_cols]
  simp [h1, h2, h3, h4]

/-- The calendar block does not disturb any other column's values. -/
theorem addCalendarCols_map_get (df : DFrame) (c2 : String)
    (h1 : c2 ≠ "hour") (h2 : c2 ≠ "day_of_week") (h3 : c2 ≠ "month")
    (h4 : c2 ≠ "is_weekend") :
    (addCalendarCols df).rows.map (fun r => r.get c2)
      = df.rows.map (fun r => r.get c2) := by
  unfold addCalendarCols
  rw [setCol_map_get _ _ _ _ h4, setCol_map_get _ _ _ _ h3,
      setCol_map_get _ _ _ _ h2, setCol_map_get _ _ _ _ h1]

/-- When either load column is absent, the load-feature block is the
identity. -/
theorem addLoadErrorCols_of_missing (df : DFrame)
    (h : ¬ ("actual_load_mw" ∈ df.cols ∧ "forecast_load_mw" ∈ df.cols)) :
    addLoadErrorCols df = df := by
  unfold addLoadErrorCols
  exact if_neg h

/-- Any column of the load-feature block's output is an input column or
one of the two forecast-error names. -/
theorem addLoadErrorCols_cols_sub (df : DFrame) (x : String)
    (hx : x ∈ (addLoadErrorCols df).cols) :
    x ∈ df.cols ∨ x = "forecast_error_mw" ∨ x = "forecast_error_pct" := by
  unfold addLoadErrorCols at hx
  by_cases h : "actual_load_mw" ∈ df.cols ∧ "forecast_load_mw" ∈ df.cols
  · rw [if_pos h] at hx
    rcases (mem_setCol_cols _ _ _ _).mp hx with hx2 | rfl
    · rcases (mem_setCol_cols _ _ _ _).mp hx2 with hx3 | rfl
      · exact Or.inl hx3
      · exact Or.inr (Or.inl rfl)
    · exact Or.inr (Or.inr rfl)
  · rw [if_neg h] at hx
    exact Or.inl hx

/-- The load-feature block does not disturb any other column's values. -/
theorem addLoadErrorCols_map_get (df : DFrame) (c2 : String)
    (h1 : c2 ≠ "forecast_error_mw") (h2 : c2 ≠ "forecast_error_pct") :
    (addLoadErrorCols df).rows.map (fun r => r.get c2)
      = df.rows.map (fun r => r.get c2) := by
  unfold addLoadErrorCols
  by_cases h : "actual_load_mw" ∈ df.cols ∧ "forecast_load_mw" ∈ df.cols
  · rw [if_pos h]
    rw [setCol_map_get _ _ _ _ h2, setCol_map_get _ _ _ _ h1]
  · rw [if_neg h]

/-- When no column name contains `actual_generation_mw`, the renewable
block is the identity. -/
theorem addRenewableCols_of_no_gen (df : DFrame)
    (h : df.cols.filter (fun c => strContains c "actual_generation_mw") = []) :
    addRenewableCols df = df := by
  simp only [addRenewableCols]
  rw [h]
  simp

/-- Any column of the renewable block's output is an input column or
one of the two renewable names. -/
theorem addRenewableCols_cols_sub (df : DFrame) (x : String)
    (hx : x ∈ (addRenewableCols df).cols) :
    x ∈ df.cols ∨ x = "total_renewable_mw" ∨ x = "renewable_penetration_pct" := by
  simp only [addRenewableCols] at hx
  split at hx
  · exact Or.inl hx
  · split at hx
    · rcases (mem_setCol_cols _ _ _ _).mp hx with hx2 | rfl
      · rcases (mem_setCol_cols _ _ _ _).mp hx2 with hx3 | rfl
        · exact Or.inl hx3
        · exact Or.inr (Or.inl rfl)
      · exact Or.inr (Or.inr rfl)
    · rcases (mem_setCol_cols _ _ _ _).mp hx with hx2 | rfl
      · exact Or.inl hx2
      · exact Or.inr (Or.inl rfl)

/-- The renewable block does not disturb any other column's values. -/
theorem addRenewableCols_map_get (df : DFrame) (c2 : String)
    (h1 : c2 ≠ "total_renewable_mw") (h2 : c2 ≠ "renewable_penetration_pct") :
    (addRenewableCols df).rows.map (fun r => r.get c2)
      = df.rows.map (fun r => r.get c2) := by
  simp only [addRenewableCols]
  split
  · rfl
  · split
    · rw [setCol_map_get _ _ _ _ h2, setCol_map_get _ _ _ _ h1]
    · rw [setCol_map_get _ _ _ _ h1]

/-- Membership in a bucket after inserting one column: either it was
already there, or it is the inserted column and the classifier sent it
to exactly this bucket. -/
theorem mem_insertColumn (m : Bucket → List String) (c col : String) (b : Bucket) :
    col ∈ insertColumn m c b ↔ col ∈ m b ∨ (col = c ∧ classifyColumn c = some b) := by
  unfold insertColumn
  rcases h : classifyColumn c with _ | b0
  · simp
  · by_cases hb : b = b0
    · subst hb
      simp [List.mem_append]
    · have : (some b0 = some b) ↔ False := by
        simp
        intro hh
        exact hb hh.symm
      simp [if_neg hb, this]

/-- Membership in a bucket of the classifier fold. -/
theorem mem_parse_foldl (cols : List String) (m : Bucket → List String)
    (col : String) (b : Bucket) :
    col ∈ (cols.foldl insertColumn m) b
      ↔ col ∈ m b ∨ (col ∈ cols ∧ classifyColumn col = some b) := by
  induction cols generalizing m with
  | nil => simp
  | cons c rest ih =>
    rw [List.foldl_cons, ih, mem_insertColumn]
    constructor
    · rintro ((hmb | ⟨rfl, hcl⟩) | ⟨hr, hcl⟩)
      · exact Or.inl hmb
      · exact Or.inr ⟨List.mem_cons_self _ _, hcl⟩
      · exact Or.inr ⟨List.mem_cons_of_mem c hr, hcl⟩
    · rintro (hmb | ⟨hmem, hcl⟩)
      · exact Or.inl (Or.inl hmb)
      · rcases List.mem_cons.mp hmem with rfl | hr
        · exact Or.inl (Or.inr ⟨rfl, hcl⟩)
        · exact Or.inr ⟨hr, hcl⟩

/-- The classifier returns no bucket exactly for the two timestamp
column names it skips. -/
theorem classifyColumn_eq_none (col : String) :
    classifyColumn col = none ↔ col ∈ timestampColumns := by
  unfold classifyColumn
  by_cases h : col ∈ timestampColumns
  · simp [h]
  · simp only [if_neg h]
    split_ifs <;> simp [h]

/-! ## Claims -/

/-- Claim C2 (amended): `parse_column_structure` partitions every input
column other than the two timestamp column names into exactly one of
the five buckets; the timestamp names land in no bucket. -/
theorem classify_partition (columns : List String) (col : String) :
    bucketsContaining (parse_column_structure columns) col
      = if col ∈ columns ∧ col ∉ timestampColumns then 1 else 0 := by
  have hmem : ∀ b, col ∈ parse_column_structure columns b
      ↔ (col ∈ columns ∧ classifyColumn col = some b) := by
    intro b
    unfold parse_column_structure
    rw [mem_parse_foldl]
    simp [emptyMapping]
  rcases h : classifyColumn col with _ | b0
  · have hts : col ∈ timestampColumns := (classifyColumn_eq_none col).mp h
    rw [if_neg (by simp [hts])]
    unfold bucketsContaining bucketList
    simp [List.countP_cons, hmem, h]
  · have hnts : col ∉ timestampColumns := by
      intro hts
      rw [(classifyColumn_eq_none col).mpr hts] at h
      cases h
    by_cases hc : col ∈ columns
    · rw [if_pos ⟨hc, hnts⟩]
      unfold bucketsContaining bucketList
      cases b0 <;> simp [List.countP_cons, hmem, h, hc]
    · rw [if_neg (fun hh => hc hh.1)]
      unfold bucketsContaining bucketList
      simp [List.countP_cons, hmem, hc]

/-- Claim C2 counterexample: the timestamp column name
`utc_timestamp` appears in no bucket at all, so it does not appear in
exactly one output bucket as the claim states. -/
theorem classify_partition_counterexample :
    ¬ bucketsContaining (parse_column_structure ["utc_timestamp"]) "utc_timestamp" = 1 := by
  decide

/-- Claim C5 (amended): for every column name other than the two
timestamp names, the classifier splits at the first separator, buckets
separator-less names as ignored, and matches the remainder against the
ordered substring rules with first match winning — so a remainder
containing both `load_actual` and `capacity` goes to the load bucket. -/
theorem classify_priority_order (col : String)
    (h1 : col ≠ "utc_timestamp") (h2 : col ≠ "cet_cest_timestamp") :
    classifyColumn col = some (
      if (pySplit '_' col).length < 2 then Bucket.ignored
      else
        let rest := String.intercalate "_" (pySplit '_' col).tail
        if strContains rest "load_actual" || strContains rest "load_forecast" then
          Bucket.load_data
        else if strContains rest "generation_actual" then Bucket.renewable_generation
        else if strContains rest "capacity" then Bucket.capacity_data
        else if strContains rest "price_day_ahead" then Bucket.energy_prices
        else Bucket.ignored) := by
  have hn : col ∉ timestampColumns := by
    simp [timestampColumns, h1, h2]
  unfold classifyColumn
  rw [if_neg hn]
  dsimp only
  split_ifs <;> rfl

/-- Witness for C5: a column whose remainder contains both
`load_actual` and `capacity` is bucketed as load data. -/
theorem classify_priority_order_witness :
    classifyColumn "DE_load_actual_capacity" = some Bucket.load_data := by
  have h := classify_priority_order "DE_load_actual_capacity" (by decide) (by decide)
  rw [h]
  decide

/-- Claim C5 counterexample: the classifier does not send
`cet_cest_timestamp` to the ignored bucket as the per-column rule would
demand — it skips the name entirely, leaving every bucket empty. -/
theorem classify_timestamp_skipped :
    classifyColumn "cet_cest_timestamp" = none
    ∧ parse_column_structure ["cet_cest_timestamp"] Bucket.ignored = [] := by
  decide

/-- Claim C1 (code_bug evidence): the dry-run counters do not agree
with the records the non-dry-run builds. A single row in which one
country has both a non-null actual and a non-null forecast load cell is
counted as 2 by `count_load_records` but builds exactly 1 load record;
a generation column classified into the generation bucket but matching
no generation-type key is counted by `count_generation_records` yet
builds no record. -/
theorem dry_run_count_mismatch :
    count_load_records
        [⟨0, 0, [("DE_load_actual", some (100 : ℚ)), ("DE_load_forecast", some 90)]⟩]
        ["DE_load_actual", "DE_load_forecast"] = 2
    ∧ (import_load_data_records
        [⟨0, 0, [("DE_load_actual", some (100 : ℚ)), ("DE_load_forecast", some 90)]⟩]
        ["DE_load_actual", "DE_load_forecast"]).length = 1
    ∧ count_generation_records
        [⟨0, 0, [("DE_biomass_generation_actual", some (50 : ℚ))]⟩]
        ["DE_biomass_generation_actual"] = 1
    ∧ (import_generation_data_records
        [⟨0, 0, [("DE_biomass_generation_actual", some (50 : ℚ))]⟩]
        ["DE_biomass_generation_actual"] []).length = 0 := by
  decide

/-- Claim C3 (code_bug evidence): on a row whose actual load is exactly
zero and whose forecast is nonzero, the derived forecast-error percent
is negative infinity, not zero — `.fillna(0)` replaces only NaN, so the
division-by-zero infinity propagates into the result. (A missing (NaN)
denominator is guarded to zero, as the second conjunct shows.) -/
theorem forecast_error_pct_propagates_infinity :
    (add_derived_features
        ⟨["timestamp", "actual_load_mw", "forecast_load_mw"],
         [⟨⟨0, 0, 1⟩, [("actual_load_mw", PVal.val 0), ("forecast_load_mw", PVal.val 5)]⟩]⟩).map
      (fun out => out.rows.map (fun r => r.get "forecast_error_pct"))
      = Except.ok [PVal.ninf]
    ∧ PVal.ninf ≠ PVal.val 0
    ∧ (add_derived_features
        ⟨["timestamp", "actual_load_mw", "forecast_load_mw"],
         [⟨⟨0, 0, 1⟩, [("actual_load_mw", PVal.nan), ("forecast_load_mw", PVal.val 5)]⟩]⟩).map
      (fun out => out.rows.map (fun r => r.get "forecast_error_pct"))
      = Except.ok [PVal.val 0] := by
  refine ⟨?_, by decide, ?_⟩ <;>
    norm_num +decide [add_derived_features, addCalendarCols, addLoadErrorCols,
      addRenewableCols, DFrame.setCol, ARow.set, ARow.get, setPVal, lookupPVal,
      PVal.sub, PVal.div, PVal.mul, PVal.fillna0, pandasRowSum, strContains,
      containsFrom, Except.map, List.filter]

/-- Claim C4: every generation record the importer builds has a null
capacity factor whenever its capacity is null, zero or negative, and
otherwise carries exactly generation ÷ capacity. -/
theorem capacity_factor_guarded (rows : List IRow) (gcols ccols : List String)
    (g : RenewableGeneration)
    (hmem : g ∈ import_generation_data_records rows gcols ccols) :
    g.capacity_factor =
      match g.capacity_mw with
      | some c => if 0 < c then some (g.actual_generation_mw / c) else none
      | none => none := by
  induction rows with
  | nil => simp [import_generation_data_records] at hmem
  | cons r rest ih =>
    rw [import_generation_cons, List.mem_append] at hmem
    rcases hmem with hm | hm
    · rcases List.mem_filterMap.mp hm with ⟨col, _, hcell⟩
      exact genRecordForCell_capacity_factor r col ccols g hcell
    · exact ih hm

/-- Witness for C4: a concrete import run with generation 10 and
capacity 40 yields a record whose capacity factor is exactly 1/4. -/
theorem capacity_factor_guarded_witness :
    (RenewableGeneration.mk 0 0 "DE" "solar" 10 (some 40) (some (10/40))).capacity_factor
      = match (RenewableGeneration.mk 0 0 "DE" "solar" (10 : ℚ) (some 40)
          (some (10/40))).capacity_mw with
        | some c => if 0 < c then
            some ((RenewableGeneration.mk 0 0 "DE" "solar" (10 : ℚ) (some 40)
              (some (10/40))).actual_generation_mw / c)
          else none
        | none => none :=
  capacity_factor_guarded
    [⟨0, 0, [("DE_solar_generation_actual", some 10), ("DE_solar_capacity", some 40)]⟩]
    ["DE_solar_generation_actual"] ["DE_solar_capacity"] _ (List.mem_singleton.mpr rfl)

/-- Claim C6: a report request whose extraction yields zero rows fails
immediately: the command raises before the profiling, upload and
metadata stages, no report row is created, and the background thread
records the terminal `failed` status. -/
theorem empty_extraction_fails (env : ReportEnv)
    (h : env.extractedRowCount = 0) :
    generate_report_async env = LogStatus.failed
    ∧ (command_handle env).savedReportUrl = none
    ∧ (command_handle env).profilingRan = false
    ∧ (command_handle env).uploadRan = false := by
  simp [generate_report_async, command_handle, h]

/-- Witness for C6 at a concrete environment. -/
theorem empty_extraction_fails_witness :
    generate_report_async
        ⟨0, none, "/tmp/p.html", [], S3UploadAttempt.ok, PresignAttempt.ok "u", false,
         "d", none, "/media/p.html"⟩ = LogStatus.failed
    ∧ (command_handle
        ⟨0, none, "/tmp/p.html", [], S3UploadAttempt.ok, PresignAttempt.ok "u", false,
         "d", none, "/media/p.html"⟩).savedReportUrl = none
    ∧ (command_handle
        ⟨0, none, "/tmp/p.html", [], S3UploadAttempt.ok, PresignAttempt.ok "u", false,
         "d", none, "/media/p.html"⟩).profilingRan = false
    ∧ (command_handle
        ⟨0, none, "/tmp/p.html", [], S3UploadAttempt.ok, PresignAttempt.ok "u", false,
         "d", none, "/media/p.html"⟩).uploadRan = false :=
  empty_extraction_fails _ rfl

/-- Claim C10: a column in the generation bucket that contains none of
the four generation-type keys contributes no generation record from any
row — per cell the builder returns `none`, and an import over that
column alone builds the empty list. -/
theorem unmapped_generation_type_no_record (r : IRow) (rows : List IRow)
    (ccols : List String) (col : String)
    (_hbucket : classifyColumn col = some Bucket.renewable_generation)
    (h1 : strContains col "solar_generation_actual" = false)
    (h2 : strContains col "wind_onshore_generation_actual" = false)
    (h3 : strContains col "wind_offshore_generation_actual" = false)
    (h4 : strContains col "wind_generation_actual" = false) :
    genRecordForCell r col ccols = none
    ∧ import_generation_data_records rows [col] ccols = [] := by
  have hft : findGenerationType col = none := by
    unfold findGenerationType generation_type_map
    simp [List.find?, h1, h2, h3, h4]
  have hcell : ∀ rr : IRow, genRecordForCell rr col ccols = none := by
    intro rr
    unfold genRecordForCell
    rw [hft]
  refine ⟨hcell r, ?_⟩
  induction rows with
  | nil => rfl
  | cons r2 rest ih =>
    rw [import_generation_cons, ih]
    simp [hcell]

/-- Claim C7 (amended): whenever the primary object-store upload fails —
missing AWS settings, a `ClientError`, or any other exception — the
pipeline falls back to the local save and still completes: the log
reaches `success` and the report row records the fallback path, which
is the local media path whenever the local write itself succeeds. -/
theorem upload_failure_falls_back (env : ReportEnv)
    (hrows : env.extractedRowCount ≠ 0)
    (hprof : env.profileError = none)
    (hfail : env.awsMissingSettings ≠ [] ∨ env.uploadAttempt ≠ S3UploadAttempt.ok) :
    generate_report_async env = LogStatus.success
    ∧ (command_handle env).savedReportUrl = some (save_report_locally env)
    ∧ (env.localSaveError = none → save_report_locally env = env.localMediaPath) := by
  have hup : upload_to_s3 env = save_report_locally env := by
    unfold upload_to_s3
    by_cases hm : env.awsMissingSettings = []
    · have hb : (!env.awsMissingSettings.isEmpty) = false := by simp [hm]
      rw [hb]
      have hatt : env.uploadAttempt ≠ S3UploadAttempt.ok := by
        rcases hfail with h | h
        · exact absurd hm h
        · exact h
      rcases hA : env.uploadAttempt with _ | m | m
      · exact absurd hA hatt
      · simp
      · simp
    · have hb : (!env.awsMissingSettings.isEmpty) = true := by
        rcases henv : env.awsMissingSettings with _ | ⟨a, rest⟩
        · exact absurd henv hm
        · rfl
      rw [hb]
      simp
  refine ⟨?_, ?_, ?_⟩
  · simp [generate_report_async, command_handle, hrows, hprof]
  · simp [command_handle, hrows, hprof, hup]
  · intro hl
    simp [save_report_locally, hl]

/-- Witness for C7 at a concrete environment whose upload raises a
`ClientError` and whose local write succeeds. -/
theorem upload_failure_falls_back_witness :
    generate_report_async
        ⟨7, none, "/tmp/p.html", [], S3UploadAttempt.clientError "denied",
         PresignAttempt.ok "u", false, "d", none, "/media/p.html"⟩ = LogStatus.success
    ∧ (command_handle
        ⟨7, none, "/tmp/p.html", [], S3UploadAttempt.clientError "denied",
         PresignAttempt.ok "u", false, "d", none, "/media/p.html"⟩).savedReportUrl
        = some (save_report_locally
            ⟨7, none, "/tmp/p.html", [], S3UploadAttempt.clientError "denied",
             PresignAttempt.ok "u", false, "d", none, "/media/p.html"⟩)
    ∧ ((⟨7, none, "/tmp/p.html", [], S3UploadAttempt.clientError "denied",
         PresignAttempt.ok "u", false, "d", none, "/media/p.html"⟩ :
         ReportEnv).localSaveError = none →
        save_report_locally
          ⟨7, none, "/tmp/p.html", [], S3UploadAttempt.clientError "denied",
           PresignAttempt.ok "u", false, "d", none, "/media/p.html"⟩
          = (⟨7, none, "/tmp/p.html", [], S3UploadAttempt.clientError "denied",
             PresignAttempt.ok "u", false, "d", none, "/media/p.html"⟩ :
             ReportEnv).localMediaPath) :=
  upload_failure_falls_back _ (by decide) rfl (Or.inr (by decide))

/-- Claim C7 counterexample: when the remote upload raises a
`ClientError` and the local write also fails internally, the pipeline
is not terminal-failed — the log still reaches `success` and the report
row records the temporary file path, contradicting the claim that a
failure of both paths is terminal (and that the recorded reference is a
locally-served path). -/
theorem both_paths_fail_still_completes :
    generate_report_async
        ⟨5, none, "/tmp/r.html", [], S3UploadAttempt.clientError "boom",
         PresignAttempt.fail "x", false, "d", some "disk full", "/media/r.html"⟩
        = LogStatus.success
    ∧ generate_report_async
        ⟨5, none, "/tmp/r.html", [], S3UploadAttempt.clientError "boom",
         PresignAttempt.fail "x", false, "d", some "disk full", "/media/r.html"⟩
        ≠ LogStatus.failed
    ∧ (command_handle
        ⟨5, none, "/tmp/r.html", [], S3UploadAttempt.clientError "boom",
         PresignAttempt.fail "x", false, "d", some "disk full", "/media/r.html"⟩).savedReportUrl
        = some "/tmp/r.html" := by
  decide

/-- Claim C9: on the three-column weather input
`DE_temperature, DE_radiation_direct_horizontal,
DE_radiation_diffuse_horizontal`, each row yields exactly one weather
record — none when every variable is missing — whose solar irradiance
is the sum of the two radiation components when both are present and
the single present component otherwise. -/
theorem weather_import_scenario (ts : ℤ) (temp dir dif : Option ℚ) :
    process_weather_batch
        [⟨ts, [("DE_temperature", temp),
               ("DE_radiation_direct_horizontal", dir),
               ("DE_radiation_diffuse_horizontal", dif)]⟩]
        (parse_weather_columns
          ["DE_temperature", "DE_radiation_direct_horizontal",
           "DE_radiation_diffuse_horizontal"] none)
      = if temp = none ∧ dir = none ∧ dif = none then []
        else [⟨ts, "DE Average", "DE", temp,
          match dir, dif with
          | some a, some b => some (a + b)
          | some a, none => some a
          | none, some b => some b
          | none, none => none⟩] := by
  have hmap : parse_weather_columns
      ["DE_temperature", "DE_radiation_direct_horizontal",
       "DE_radiation_diffuse_horizontal"] none
      = [("DE", ⟨some "DE_temperature", some "DE_radiation_direct_horizontal",
          some "DE_radiation_diffuse_horizontal"⟩)] := by decide
  rw [hmap]
  rcases temp with _ | t <;> rcases dir with _ | a <;> rcases dif with _ | b <;>
    simp [process_weather_batch, weatherRecordForCountry, WRow.get, lookupOpt]

/-- Witness for C10: `DE_biomass_generation_actual` is classified into
the generation bucket yet builds no record even from a non-null cell. -/
theorem unmapped_generation_type_no_record_witness :
    genRecordForCell ⟨0, 0, [("DE_biomass_generation_actual", some (50 : ℚ))]⟩
        "DE_biomass_generation_actual" [] = none
    ∧ import_generation_data_records
        [⟨0, 0, [("DE_biomass_generation_actual", some (50 : ℚ))]⟩]
        ["DE_biomass_generation_actual"] [] = [] :=
  unmapped_generation_type_no_record _ _ _ _ (by decide) (by decide) (by decide)
    (by decide) (by decide)

/-- Claim C8: `add_derived_features` is total on every frame carrying
its (non-optional) timestamp column — missing optional columns never
reach an unguarded access — and on such frames: the forecast-error
outputs are absent whenever either load column is missing, the
renewable outputs are absent whenever no generation column is present,
and every input column's values are returned unchanged. -/
theorem add_derived_features_total (df : DFrame)
    (hts : "timestamp" ∈ df.cols ∨ df.rows = []) :
    ∃ out, add_derived_features df = Except.ok out
      ∧ (¬ ("actual_load_mw" ∈ df.cols ∧ "forecast_load_mw" ∈ df.cols) →
          ("forecast_error_mw" ∉ df.cols → "forecast_error_mw" ∉ out.cols)
          ∧ ("forecast_error_pct" ∉ df.cols → "forecast_error_pct" ∉ out.cols))
      ∧ (df.cols.filter (fun c => strContains c "actual_generation_mw") = [] →
          ("total_renewable_mw" ∉ df.cols → "total_renewable_mw" ∉ out.cols)
          ∧ ("renewable_penetration_pct" ∉ df.cols →
              "renewable_penetration_pct" ∉ out.cols))
      ∧ (∀ c2, c2 ∈ df.cols →
          c2 ∉ (["hour", "day_of_week", "month", "is_weekend", "forecast_error_mw",
                 "forecast_error_pct", "total_renewable_mw",
                 "renewable_penetration_pct"] : List String) →
          out.rows.map (fun r => r.get c2) = df.rows.map (fun r => r.get c2)) := by
  by_cases hemp : df.rows.isEmpty
  · refine ⟨df, ?_, ?_, ?_, ?_⟩
    · unfold add_derived_features
      rw [if_pos hemp]
    · exact fun _ => ⟨fun hn => hn, fun hn => hn⟩
    · exact fun _ => ⟨fun hn => hn, fun hn => hn⟩
    · exact fun _ _ _ => rfl
  · have htsc : "timestamp" ∈ df.cols := by
      rcases hts with h | h
      · exact h
      · exfalso
        rw [h] at hemp
        exact hemp rfl
    refine ⟨addRenewableCols (addLoadErrorCols (addCalendarCols df)), ?_, ?_, ?_, ?_⟩
    · unfold add_derived_features
      rw [if_neg hemp, if_neg (fun hn => hn htsc)]
    · intro hguard
      have hguard2 : ¬ ("actual_load_mw" ∈ (addCalendarCols df).cols ∧
          "forecast_load_mw" ∈ (addCalendarCols df).cols) := fun hp =>
        hguard ⟨(mem_addCalendarCols_of_ne df _ (by decide) (by decide) (by decide)
            (by decide)).mp hp.1,
          (mem_addCalendarCols_of_ne df _ (by decide) (by decide) (by decide)
            (by decide)).mp hp.2⟩
      rw [addLoadErrorCols_of_missing _ hguard2]
      constructor
      · intro hnin hmem
        rcases addRenewableCols_cols_sub _ _ hmem with h | h | h
        · exact hnin ((mem_addCalendarCols_of_ne df _ (by decide) (by decide)
            (by decide) (by decide)).mp h)
        · exact absurd h (by decide)
        · exact absurd h (by decide)
      · intro hnin hmem
        rcases addRenewableCols_cols_sub _ _ hmem with h | h | h
        · exact hnin ((mem_addCalendarCols_of_ne df _ (by decide) (by decide)
            (by decide) (by decide)).mp h)
        · exact absurd h (by decide)
        · exact absurd h (by decide)
    · intro hfil
      have hall : (addLoadErrorCols (addCalendarCols df)).cols.filter
          (fun c => strContains c "actual_generation_mw") = [] := by
        rw [filter_eq_nil_forall]
        intro a ha
        rcases addLoadErrorCols_cols_sub _ _ ha with h | rfl | rfl
        · rcases (addCalendarCols_cols df _).mp h with h2 | rfl | rfl | rfl | rfl
          · exact (filter_eq_nil_forall _ _).mp hfil a h2
          · decide
          · decide
          · decide
          · decide
        · decide
        · decide
      rw [addRenewableCols_of_no_gen _ hall]
      constructor
      · intro hnin hmem
        rcases addLoadErrorCols_cols_sub _ _ hmem with h | h | h
        · exact hnin ((mem_addCalendarCols_of_ne df _ (by decide) (by decide)
            (by decide) (by decide)).mp h)
        · exact absurd h (by decide)
        · exact absurd h (by decide)
      · intro hnin hmem
        rcases addLoadErrorCols_cols_sub _ _ hmem with h | h | h
        · exact hnin ((mem_addCalendarCols_of_ne df _ (by decide) (by decide)
            (by decide) (by decide)).mp h)
        · exact absurd h (by decide)
        · exact absurd h (by decide)
    · intro c2 _ hnotin
      simp only [List.mem_cons, List.not_mem_nil, or_false, not_or] at hnotin
      obtain ⟨n1, n2, n3, n4, n5, n6, n7, n8⟩ := hnotin
      rw [addRenewableCols_map_get _ _ n7 n8, addLoadErrorCols_map_get _ _ n5 n6,
          addCalendarCols_map_get _ _ n1 n2 n3 n4]

/-- Witness for C8 at a one-row frame carrying only the timestamp
column. -/
theorem add_derived_features_total_witness :
    ∃ out, add_derived_features (DFrame.mk ["timestamp"] [ARow.mk ⟨0, 0, 1⟩ []])
        = Except.ok out
      ∧ (¬ ("actual_load_mw" ∈ (DFrame.mk ["timestamp"] [ARow.mk ⟨0, 0, 1⟩ []]).cols
            ∧ "forecast_load_mw" ∈ (DFrame.mk ["timestamp"] [ARow.mk ⟨0, 0, 1⟩ []]).cols) →
          ("forecast_error_mw" ∉ (DFrame.mk ["timestamp"] [ARow.mk ⟨0, 0, 1⟩ []]).cols →
            "forecast_error_mw" ∉ out.cols)
          ∧ ("forecast_error_pct" ∉ (DFrame.mk ["timestamp"] [ARow.mk ⟨0, 0, 1⟩ []]).cols →
              "forecast_error_pct" ∉ out.cols))
      ∧ ((DFrame.mk ["timestamp"] [ARow.mk ⟨0, 0, 1⟩ []]).cols.filter
            (fun c => strContains c "actual_generation_mw") = [] →
          ("total_renewable_mw" ∉ (DFrame.mk ["timestamp"] [ARow.mk ⟨0, 0, 1⟩ []]).cols →
            "total_renewable_mw" ∉ out.cols)
          ∧ ("renewable_penetration_pct" ∉
                (DFrame.mk ["timestamp"] [ARow.mk ⟨0, 0, 1⟩ []]).cols →
              "renewable_penetration_pct" ∉ out.cols))
      ∧ (∀ c2, c2 ∈ (DFrame.mk ["timestamp"] [ARow.mk ⟨0, 0, 1⟩ []]).cols →
          c2 ∉ (["hour", "day_of_week", "month", "is_weekend", "forecast_error_mw",
                 "forecast_error_pct", "total_renewable_mw",
                 "renewable_penetration_pct"] : List String) →
          out.rows.map (fun r => r.get c2)
            = (DFrame.mk ["timestamp"] [ARow.mk ⟨0, 0, 1⟩ []]).rows.map
                (fun r => r.get c2)) :=
  add_derived_features_total (DFrame.mk ["timestamp"] [ARow.mk ⟨0, 0, 1⟩ []])
    (Or.inl (by decide))

end EnergyForecast
